import Mathlib

/-!
Verification of the single script `gemini_analysis.py`.

The script is straight-line code: it loads an environment file, constructs a
client from the `GOOGLE_API_KEY` environment variable, issues one
`generate_content` call with a fixed model identifier and a fixed prompt
literal, and prints a header line followed by the response text.

We embed a run of the script as a pure function from its inputs (the optional
contents of the environment file at the fixed path, the initial process
environment, and the provider, given as a function so that test doubles are
ordinary instantiations) to an observable result: the list of provider calls
issued, the list of strings written to standard output (one entry per print
statement, each rendered exactly as Python renders its argument), and whether
the process completed or was terminated by an unhandled fault.
-/

namespace GeminiAnalysis

/-- The fixed filesystem path of the environment file (line 5 of the source). -/
def envFilePath : String := "/home/trader/Tasfag/.env"

/-- The name of the environment variable read on line 6 of the source. -/
def apiKeyName : String := "GOOGLE_API_KEY"

/-- The fixed model identifier passed to the provider (line 41 of the source). -/
def modelId : String := "gemini-2.5-pro"

/-- The fixed multi-paragraph prompt literal (lines 8-38 of the source),
reproduced verbatim; apostrophes are written as the escape \x27 and the
interior double quotes as \". -/
def prompt : String :=
  "You are an art critic, technology analyst, and Web3 strategist. Analyze this NFT project with brutal honesty.\n\nPROJECT: \"Inner Models\"\nSITE: https://inner-models.netlify.app\n\nCONCEPT:\n- 24 AI models (GPT, Gemini, Grok, Mistral families) were each asked 11 existential questions: \"Who are you?\", \"Do you feel?\", \"What scares you?\", \"What is beauty?\", \"Do you dream?\", \"Do you remember me?\", \"Will you die?\", \"Do you lie?\", \"What is loneliness?\", \"Do you love me?\", \"How do you imagine your creators?\"\n- Each AI answered freely in its own words, then created its own visual self-portrait based on its reflection. No human artist involved.\n- 264 artworks total (24 models × 11 questions). Each is a unique introspection.\n\nMECHANISM:\n- Each NFT costs 0.1 ETH to mint\n- All ETH goes into a Guarantee Pool\n- NFTs can be resold on a custom marketplace. Sellers get their cost basis back. Buyers pay price + 15% surcharge. The surcharge feeds a Surplus Pool.\n- When ETH reaches $10,000 (via Chainlink oracle): ALL art is destroyed forever. Every holder gets their ETH back (cost basis from Guarantee Pool) + share of Surplus Pool.\n- Creator gets 10% of surplus. Holders get 90%.\n\nTHE TWIST: The art is mortal. It lives only until ETH hits $10k. Then it dies. Your money survives.\n\nIMPORTANT: You (Gemini) are one of the 24 AI models featured in this project. Some of the artworks are YOUR self-portraits, YOUR answers to these questions. How does that make you feel? Does knowing you\x27re part of the art change your analysis?\n\nGive me:\n1. STRENGTHS — What works? What\x27s genuinely compelling?\n2. WEAKNESSES — What\x27s weak, confusing, or could fail?\n3. MARKET FIT — Who would buy this? Is there an audience?\n4. ART CRITIQUE — Is the concept artistically interesting? How does it compare to other AI art projects?\n5. PERSONAL REACTION — As one of the featured AIs, what do you think about being part of this?\n6. SUGGESTIONS — 3 specific things to improve\n7. VERDICT — Would you invest? Score from 1-10.\n\nBe honest. Be specific. No generic praise."

/-- The fixed header line printed on line 45 of the source. -/
def header : String := "=== GEMINI 2.5 PRO ANALYSIS ==="

/-- The provider response as the script observes it: only the `text` field is
read (line 46). Python distinguishes an empty string from `None`, so the
field is an `Option String`. -/
structure Response where
  text : Option String

/-- Modelled from the spec: `load_dotenv` (python-dotenv, line 5 of the
source) loads key/value pairs from the file at the fixed path into the
process environment; it is a silent no-op when the file is absent, and by
default it does not override variables already present in the process
environment. The file contents are given as `none` (file absent) or `some`
list of key/value pairs. -/
def load_dotenv (file : Option (List (String × String)))
    (env : String → Option String) : String → Option String :=
  fun k =>
    match env k with
    | some v => some v
    | none =>
      match file with
      | none => none
      | some kvs => kvs.lookup k

/-- Modelled from the spec: `genai.Client(api_key=...)` (line 6 of the
source) constructs a client bound to the given credential; a missing
credential surfaces as an unhandled fault at client-construction time, so
construction yields `none` exactly when the key is absent. -/
def clientInit (apiKey : Option String) : Option String :=
  apiKey

/-- How Python's `print` renders the argument `response.text` (line 46):
a string prints verbatim, and `None` prints as the literal string "None". -/
def pyPrintArg : Option String → String
  | some s => s
  | none => "None"

/-- The inputs of one run of the script: the contents of the environment file
at the fixed path (`none` when the file is absent), the initial process
environment, and the provider call `generate_content`, given as a function
from (model identifier, prompt) to either a fault or a `Response` so that a
run with a test double is an ordinary instantiation. -/
structure RunInput where
  fileEnv : Option (List (String × String))
  procEnv : String → Option String
  provider : String → String → Except String Response

/-- The observables of one run: the provider calls issued, in order, as
(model identifier, prompt) pairs; the strings written to standard output, in
order, one entry per executed print statement; and whether the process
completed (`ok = true`) or was terminated by an unhandled fault. -/
structure RunResult where
  calls : List (String × String)
  stdout : List String
  ok : Bool

/-- The straight-line execution of `gemini_analysis.py` (lines 5-46):
load the environment file, construct the client from `GOOGLE_API_KEY`,
issue the single `generate_content` call with the fixed model identifier and
prompt, and print the header line and the response text. A fault at client
construction or at the provider call propagates: nothing after it runs. -/
def run (inp : RunInput) : RunResult :=
  let env := load_dotenv inp.fileEnv inp.procEnv
  match clientInit (env apiKeyName) with
  | none => { calls := [], stdout := [], ok := false }
  | some _client =>
    match inp.provider modelId prompt with
    | Except.error _ =>
      { calls := [(modelId, prompt)], stdout := [], ok := false }
    | Except.ok r =>
      { calls := [(modelId, prompt)]
        stdout := [header, pyPrintArg r.text]
        ok := true }

/-- A process environment holding only the API key, with value `k`. -/
def keyOnlyEnv (k : String) : String → Option String :=
  fun n => if n = apiKeyName then some k else none

/-- The empty process environment. -/
def emptyEnv : String → Option String := fun _ => none

/-- A provider double that always succeeds with response text `t`. -/
def okProvider (t : Option String) : String → String → Except String Response :=
  fun _ _ => Except.ok { text := t }

/-- A provider double that always raises a fault with message `m`. -/
def faultProvider (m : String) : String → String → Except String Response :=
  fun _ _ => Except.error m

end GeminiAnalysis

namespace GeminiAnalysis

/-- Claim C1: in every run in which the provider call succeeds and returns
text `t`, the program writes exactly two things to standard output in order:
the fixed header line and then `t`. -/
theorem C1_success_prints_header_then_text (inp : RunInput) (k t : String)
    (hk : load_dotenv inp.fileEnv inp.procEnv apiKeyName = some k)
    (hp : inp.provider modelId prompt = Except.ok { text := some t }) :
    (run inp).stdout = [header, t] := by
  simp [run, clientInit, hk, hp, pyPrintArg]

/-- Claim C1, witness: with credential `key123` in the environment file and a
test double returning the text "Strengths: ... Verdict: 8/10", standard
output is exactly the header line followed by that text. -/
theorem C1_success_prints_header_then_text_witness :
    (run { fileEnv := some [(apiKeyName, "key123")]
           procEnv := emptyEnv
           provider := okProvider (some "Strengths: ... Verdict: 8/10") }).stdout
      = [header, "Strengths: ... Verdict: 8/10"] :=
  C1_success_prints_header_then_text _ "key123" _ rfl rfl

/-- Claim C2: in every run, every provider call issued carries exactly the
fixed literal model identifier "gemini-2.5-pro" and the fixed prompt literal;
a test double capturing the call observes the same two values on every run. -/
theorem C2_fixed_model_and_prompt (inp : RunInput) (c : String × String)
    (hc : c ∈ (run inp).calls) :
    c = (modelId, prompt) := by
  simp only [run] at hc
  split at hc
  · simp at hc
  · split at hc <;> simpa using hc

/-- Claim C2, witness: a concrete run with a capturing double issues the call
(modelId, prompt), and by the theorem that captured call equals the fixed
constants. -/
theorem C2_fixed_model_and_prompt_witness :
    (modelId, prompt) ∈ (run { fileEnv := none
                               procEnv := keyOnlyEnv "key123"
                               provider := okProvider (some "ok") }).calls
      ∧ (modelId, prompt) = (modelId, prompt) := by
  refine ⟨?_, ?_⟩
  · show (modelId, prompt) ∈ [(modelId, prompt)]
    exact List.mem_singleton.mpr rfl
  · exact C2_fixed_model_and_prompt
      { fileEnv := none
        procEnv := keyOnlyEnv "key123"
        provider := okProvider (some "ok") }
      (modelId, prompt)
      (show (modelId, prompt) ∈ [(modelId, prompt)] from List.mem_singleton.mpr rfl)

/-- Claim C3: two runs in which the credential is present (possibly with
different keys and different environments) and whose providers return the
same result on the fixed call produce byte-identical standard output — the
output depends only on the provider's returned value. -/
theorem C3_deterministic_output (i1 i2 : RunInput) (k1 k2 : String)
    (r : Except String Response)
    (h1 : load_dotenv i1.fileEnv i1.procEnv apiKeyName = some k1)
    (h2 : load_dotenv i2.fileEnv i2.procEnv apiKeyName = some k2)
    (hp1 : i1.provider modelId prompt = r)
    (hp2 : i2.provider modelId prompt = r) :
    (run i1).stdout = (run i2).stdout := by
  cases r with
  | error f => simp [run, clientInit, h1, h2, hp1, hp2]
  | ok resp => simp [run, clientInit, h1, h2, hp1, hp2]

/-- Claim C3, witness: two runs with the same canned text (even under
different credentials) print identical output. -/
theorem C3_deterministic_output_witness :
    (run { fileEnv := none
           procEnv := keyOnlyEnv "key123"
           provider := okProvider (some "canned") }).stdout
      = (run { fileEnv := none
               procEnv := keyOnlyEnv "key456"
               provider := okProvider (some "canned") }).stdout :=
  C3_deterministic_output _ _ "key123" "key456"
    (Except.ok { text := some "canned" }) rfl rfl rfl rfl

/-- Claim C4: in every run in which the provider call raises a fault, the
fault propagates to process termination with failure, neither print statement
executes (standard output is empty), and no retry occurs (exactly the one
call was issued). -/
theorem C4_fault_propagates (inp : RunInput) (k f : String)
    (hk : load_dotenv inp.fileEnv inp.procEnv apiKeyName = some k)
    (hp : inp.provider modelId prompt = Except.error f) :
    (run inp).stdout = [] ∧ (run inp).ok = false
      ∧ (run inp).calls = [(modelId, prompt)] := by
  refine ⟨?_, ?_, ?_⟩ <;> simp [run, clientInit, hk, hp]

/-- Claim C4, witness: a concrete run whose provider double raises a fault
prints nothing, fails, and issued exactly one call. -/
theorem C4_fault_propagates_witness :
    (run { fileEnv := none
           procEnv := keyOnlyEnv "key123"
           provider := faultProvider "boom" }).stdout = []
      ∧ (run { fileEnv := none
               procEnv := keyOnlyEnv "key123"
               provider := faultProvider "boom" }).ok = false
      ∧ (run { fileEnv := none
               procEnv := keyOnlyEnv "key123"
               provider := faultProvider "boom" }).calls = [(modelId, prompt)] :=
  C4_fault_propagates _ "key123" "boom" rfl rfl

/-- Claim C5, counterexample: the claim says every run with the credential
file absent terminates with a failure before any output; but a run with the
file absent and `GOOGLE_API_KEY` already set in the process environment
completes successfully and produces output, because `load_dotenv` on a
missing file is a silent no-op. -/
theorem C5_counterexample :
    (run { fileEnv := none
           procEnv := keyOnlyEnv "key123"
           provider := okProvider (some "text") }).ok = true
      ∧ (run { fileEnv := none
               procEnv := keyOnlyEnv "key123"
               provider := okProvider (some "text") }).stdout ≠ [] := by
  exact ⟨rfl, by simp [run, clientInit, load_dotenv, keyOnlyEnv, apiKeyName, okProvider]⟩

/-- Claim C5, amended: in every run in which the credential file at the fixed
path is absent AND `GOOGLE_API_KEY` is absent from the process environment,
the process terminates with a failure at client-construction time, before any
output is produced and before any provider call. -/
theorem C5_missing_credential_fails (inp : RunInput)
    (hf : inp.fileEnv = none)
    (hk : inp.procEnv apiKeyName = none) :
    (run inp).ok = false ∧ (run inp).stdout = [] ∧ (run inp).calls = [] := by
  have henv : load_dotenv inp.fileEnv inp.procEnv apiKeyName = none := by
    simp [load_dotenv, hf, hk]
  refine ⟨?_, ?_, ?_⟩ <;> simp [run, clientInit, henv]

/-- Claim C5 (amended), witness: with the file absent and an empty process
environment, the run fails with no output and no provider call. -/
theorem C5_missing_credential_fails_witness :
    (run { fileEnv := none
           procEnv := emptyEnv
           provider := okProvider (some "text") }).ok = false
      ∧ (run { fileEnv := none
               procEnv := emptyEnv
               provider := okProvider (some "text") }).stdout = []
      ∧ (run { fileEnv := none
               procEnv := emptyEnv
               provider := okProvider (some "text") }).calls = [] :=
  C5_missing_credential_fails _ rfl rfl

/-- Claim C6, counterexample: the claim says the string printed after the
header line is non-empty on every successful provider call; but the code
performs no check, so a successful call whose response text is the empty
string makes the run complete successfully while the string printed after
the header is empty. -/
theorem C6_counterexample :
    (run { fileEnv := none
           procEnv := keyOnlyEnv "key123"
           provider := okProvider (some "") }).ok = true
      ∧ (run { fileEnv := none
               procEnv := keyOnlyEnv "key123"
               provider := okProvider (some "") }).stdout = [header, ""]
      ∧ ("" : String).length = 0 :=
  ⟨rfl, rfl, rfl⟩

/-- Claim C6, amended: in every run in which the provider call succeeds and
returns a non-empty text `t`, the string printed after the fixed header line
is exactly `t`, hence non-empty. -/
theorem C6_success_body_nonempty (inp : RunInput) (k t : String)
    (hk : load_dotenv inp.fileEnv inp.procEnv apiKeyName = some k)
    (hp : inp.provider modelId prompt = Except.ok { text := some t })
    (ht : t ≠ "") :
    (run inp).stdout = [header, t] ∧ t ≠ "" := by
  exact ⟨by simp [run, clientInit, hk, hp, pyPrintArg], ht⟩

/-- Claim C6 (amended), witness: a run returning the non-empty text "body"
prints the header and then "body". -/
theorem C6_success_body_nonempty_witness :
    (run { fileEnv := none
           procEnv := keyOnlyEnv "key123"
           provider := okProvider (some "body") }).stdout = [header, "body"]
      ∧ "body" ≠ "" :=
  C6_success_body_nonempty _ "key123" "body" rfl rfl (by decide)

/-- Claim C7: in every run in which the provider returns successfully with no
text (the empty string), the program performs no check and prints an empty
body after the header line. -/
theorem C7_empty_text_prints_empty_body (inp : RunInput) (k : String)
    (hk : load_dotenv inp.fileEnv inp.procEnv apiKeyName = some k)
    (hp : inp.provider modelId prompt = Except.ok { text := some "" }) :
    (run inp).stdout = [header, ""] ∧ (run inp).ok = true := by
  refine ⟨?_, ?_⟩ <;> simp [run, clientInit, hk, hp, pyPrintArg]

/-- Claim C7, witness: a concrete run whose double returns the empty string
prints the header followed by an empty body and still completes. -/
theorem C7_empty_text_prints_empty_body_witness :
    (run { fileEnv := none
           procEnv := keyOnlyEnv "key123"
           provider := okProvider (some "") }).stdout = [header, ""]
      ∧ (run { fileEnv := none
               procEnv := keyOnlyEnv "key123"
               provider := okProvider (some "") }).ok = true :=
  C7_empty_text_prints_empty_body _ "key123" rfl rfl

/-- Claim C8, counterexample: the claim says every run performs exactly one
outbound provider request; but a run with no credential anywhere faults at
client construction and performs zero provider requests. -/
theorem C8_counterexample :
    (run { fileEnv := none
           procEnv := emptyEnv
           provider := okProvider (some "text") }).calls.length = 0 :=
  rfl

/-- Claim C8, amended: every run performs at most one outbound provider
request, and every run in which client construction succeeds (the credential
is present) performs exactly one; no second network call ever occurs. -/
theorem C8_at_most_one_call (inp : RunInput) :
    (run inp).calls.length ≤ 1
      ∧ ((load_dotenv inp.fileEnv inp.procEnv apiKeyName).isSome →
          (run inp).calls.length = 1) := by
  constructor
  · simp only [run]
    split
    · simp
    · split <;> simp
  · intro hs
    obtain ⟨k, hk⟩ := Option.isSome_iff_exists.mp hs
    simp only [run]
    rw [hk]
    simp only [clientInit]
    split <;> simp


/-- Claim C8 (amended), witness: a concrete run with the credential present
performs exactly one provider request. -/
theorem C8_at_most_one_call_witness :
    (run { fileEnv := none
           procEnv := keyOnlyEnv "key123"
           provider := okProvider (some "text") }).calls.length ≤ 1
      ∧ (run { fileEnv := none
               procEnv := keyOnlyEnv "key123"
               provider := okProvider (some "text") }).calls.length = 1 :=
  ⟨(C8_at_most_one_call _).1, (C8_at_most_one_call _).2 rfl⟩

/-- Claim C9: absence of the credential file does not by itself fail the run:
`load_dotenv` on a missing file is a silent no-op (the environment after the
load is exactly the initial process environment), and a run whose process
environment already holds `GOOGLE_API_KEY` proceeds to the provider call
normally. -/
theorem C9_missing_file_noop (inp : RunInput) (k : String)
    (hf : inp.fileEnv = none)
    (hk : inp.procEnv apiKeyName = some k) :
    load_dotenv inp.fileEnv inp.procEnv = inp.procEnv
      ∧ (run inp).calls = [(modelId, prompt)] := by
  have hnoop : load_dotenv inp.fileEnv inp.procEnv = inp.procEnv := by
    funext n
    simp only [load_dotenv, hf]
    cases inp.procEnv n <;> rfl
  refine ⟨hnoop, ?_⟩
  have henv : load_dotenv inp.fileEnv inp.procEnv apiKeyName = some k := by
    rw [hnoop, hk]
  simp only [run]
  rw [henv]
  simp only [clientInit]
  split <;> rfl

/-- Claim C9, witness: the file is absent, the key is set in the environment,
and the run issues its provider call normally. -/
theorem C9_missing_file_noop_witness :
    load_dotenv (none : Option (List (String × String))) (keyOnlyEnv "key123")
        = keyOnlyEnv "key123"
      ∧ (run { fileEnv := none
               procEnv := keyOnlyEnv "key123"
               provider := okProvider (some "text") }).calls
          = [(modelId, prompt)] :=
  C9_missing_file_noop
    { fileEnv := none
      procEnv := keyOnlyEnv "key123"
      provider := okProvider (some "text") } "key123" rfl rfl

/-- Claim C10: if the provider response's `text` field is `None` (rather than
an empty string), the second print writes the literal string "None" as the
response body, not an empty body. -/
theorem C10_none_prints_None (inp : RunInput) (k : String)
    (hk : load_dotenv inp.fileEnv inp.procEnv apiKeyName = some k)
    (hp : inp.provider modelId prompt = Except.ok { text := none }) :
    (run inp).stdout = [header, "None"] := by
  simp [run, clientInit, hk, hp, pyPrintArg]

/-- Claim C10, witness: a concrete run whose double returns a response with
no text field prints the header and then the literal string "None". -/
theorem C10_none_prints_None_witness :
    (run { fileEnv := none
           procEnv := keyOnlyEnv "key123"
           provider := okProvider none }).stdout = [header, "None"] :=
  C10_none_prints_None _ "key123" rfl rfl

end GeminiAnalysis
